import Mathlib

/-!
Verification of the n2 build-core fragment (`src/hash.rs`, `src/run.rs`).

The build signature engine (`hash.rs`) is embedded at the level of the byte
stream fed to the digest: Rust's `std::collections::hash_map::DefaultHasher`
is an external collaborator, and we identify a `Fingerprint` with the exact
sequence of bytes written into that hasher, i.e. we treat the external 64-bit
finalizer as injective on its input stream.  Rust's `Hash` instance for `str`
writes the string's UTF-8 bytes followed by a `0xFF` terminator byte;
`Hash` for `SystemTime` writes the seconds (as a 64-bit little-endian value)
followed by the nanosecond remainder (32-bit little-endian).  Panics
(`panic!` in `get_fileid_status`) are modelled by `Option`: a `none` result
is a process abort.

The orchestration (`run.rs`) is embedded over oracle collaborators (Loader,
Scheduler/Work, tracing), with an instrumented log recording the Loader
calls and the Scheduler `run` invocations, mirroring the "counter
collaborator" style of observation the specification itself proposes.
-/

namespace N2

/-! ## Data model

Modelled from the spec: `FileId`, `MTime`, `Graph`, `FileState`, `RspFile`
and `Build` live in `src/graph.rs`, which is not part of this fragment.
The spec describes them as: a File Identifier (stable handle naming a file),
a File Status (`Present(timestamp)` or `Missing`, one per identifier),
a Build Edge with ordered dirtying inputs, ordered discovered inputs,
an optional command line, an optional response file (path, content) and
ordered outputs.  Timestamps are modelled as nanoseconds since the epoch. -/

abbrev FileId := Nat

/-- Modelled from the spec: File Status is `Present(timestamp)` or `Missing`;
`Stamp` carries the timestamp in nanoseconds since the Unix epoch. -/
inductive MTime where
  | Stamp (t : Nat)
  | Missing
deriving DecidableEq, Repr

/-- Modelled from the spec: the graph names each File Identifier
(`graph.file(id).name` in the source); a `File` is reduced to its name,
the only field the hashing fragment reads. -/
structure Graph where
  fileName : FileId → String

/-- Modelled from the spec: one File Status per File Identifier, valid for
one build pass; `none` models an identifier with no status entry
(`FileState::get` returns an option in the source). -/
abbrev FileState := FileId → Option MTime

/-- Modelled from the spec: a response file is a pair (path, content-text). -/
structure RspFile where
  path : String
  content : String
deriving DecidableEq, Repr

/-- Modelled from the spec: a Build Edge with ordered dirtying inputs,
ordered discovered inputs, optional command line, optional response file
and ordered outputs (the accessors `dirtying_ins`, `discovered_ins`,
`outs` of the source's `Build` become fields). -/
structure Build where
  dirtying_ins : List FileId
  discovered_ins : List FileId
  cmdline : Option String
  rspfile : Option RspFile
  outs : List FileId

/-! ## Byte-stream model of the external `DefaultHasher` -/

/-- UTF-8 encoding of one character, as byte values. -/
def charBytes (c : Char) : List Nat :=
  let n := c.toNat
  if n < 0x80 then [n]
  else if n < 0x800 then [0xC0 + n / 64, 0x80 + n % 64]
  else if n < 0x10000 then
    [0xE0 + n / 4096, 0x80 + (n / 64) % 64, 0x80 + n % 64]
  else
    [0xF0 + n / 262144, 0x80 + (n / 4096) % 64, 0x80 + (n / 64) % 64,
      0x80 + n % 64]

/-- Raw UTF-8 bytes of a string, as written by `Hasher::write` on the
string's bytes. -/
def strRawBytes (s : String) : List Nat :=
  (s.data.map charBytes).flatten

/-- Bytes contributed by Rust's `Hash for str`: the UTF-8 bytes followed by
a `0xFF` terminator byte. -/
def strHashBytes (s : String) : List Nat :=
  strRawBytes s ++ [0xFF]

/-- Little-endian byte encoding of a value truncated to 64 bits, as written
by `Hasher::write_u64`/`write_i64`. -/
def u64le (n : Nat) : List Nat :=
  [n % 256, n / 256 % 256, n / 256 ^ 2 % 256, n / 256 ^ 3 % 256,
    n / 256 ^ 4 % 256, n / 256 ^ 5 % 256, n / 256 ^ 6 % 256,
    n / 256 ^ 7 % 256]

/-- Little-endian byte encoding of a value truncated to 32 bits, as written
by `Hasher::write_u32`. -/
def u32le (n : Nat) : List Nat :=
  [n % 256, n / 256 % 256, n / 256 ^ 2 % 256, n / 256 ^ 3 % 256]

/-- Bytes contributed by `Hash for SystemTime` for a timestamp of `t`
nanoseconds after the epoch: whole seconds as 64 bits, then the
nanosecond remainder as 32 bits. -/
def timeBytes (t : Nat) : List Nat :=
  u64le (t / 1000000000) ++ u32le (t % 1000000000)

/-- Hash value identifying one execution of a Build: modelled as the byte
transcript fed to the external 64-bit hasher (`pub struct Hash(pub u64)` in
the source, with the finalizer treated as injective on its input). -/
abbrev Hash := List Nat

/-! ## The signature engine (`src/hash.rs`) -/

/-- Embedding of `get_fileid_status`: look up the name and status of a file.
The source panics when the identifier has no status entry or the status is
`Missing`; a panic is modelled as `none`. -/
def get_fileid_status (graph : Graph) (file_state : FileState) (id : FileId) :
    Option (String × Nat) :=
  match file_state id with
  | none => none
  | some MTime.Missing => none
  | some (MTime.Stamp t) => some (graph.fileName id, t)

/-- Embedding of the `BuildHasher` trait of `hash.rs`: the state `σ` is the
hasher's accumulated state, `write_files` may abort (source: panic inside
`get_fileid_status`). -/
structure BuildHasher (σ : Type) where
  write_files : σ → String → Graph → FileState → List FileId → Option σ
  write_rsp : σ → RspFile → σ
  write_cmdline : σ → String → σ

/-- Reserved group-separator byte written between hashed groups
(`const UNIT_SEPARATOR: u8 = 0x1F`). -/
def UNIT_SEPARATOR : Nat := 0x1F

/-- Loop body of `TerseHash::write_files`: for each identifier write the
name (as a `str` hash) and the timestamp, then after the whole list one
separator byte. -/
def terse_write_files (graph : Graph) (file_state : FileState)
    (s : List Nat) : List FileId → Option (List Nat)
  | [] => some (s ++ [UNIT_SEPARATOR])
  | id :: ids =>
    match get_fileid_status graph file_state id with
    | none => none
    | some nt =>
      terse_write_files graph file_state (s ++ strHashBytes nt.1 ++ timeBytes nt.2) ids

/-- Embedding of `TerseHash`, the `BuildHasher` used during normal builds.
`write_rsp` performs `Hash::hash(rspfile)`; the `Hash` implementation of
`RspFile` lives in `src/graph.rs`, which is not part of this fragment, so it
is modelled from the spec: "feed its full content through the digest"
(the content contributing as a hashed string). -/
def terseHasher : BuildHasher (List Nat) where
  write_files s _desc graph file_state ids :=
    terse_write_files graph file_state s ids
  write_rsp s rspfile := s ++ strHashBytes rspfile.content
  write_cmdline s cmdline := s ++ strHashBytes cmdline ++ [UNIT_SEPARATOR]

/-- Embedding of `hash_build_with_hasher`: the single traversal shared by
the terse hasher and the explain recorder, in the source's order:
dirtying inputs, discovered inputs, command line, optional response file,
outputs. -/
def hash_build_with_hasher {σ : Type} (H : BuildHasher σ) (graph : Graph)
    (file_state : FileState) (b : Build) (s : σ) : Option σ := do
  let s ← H.write_files s "in" graph file_state b.dirtying_ins
  let s ← H.write_files s "discovered" graph file_state b.discovered_ins
  let s := H.write_cmdline s (b.cmdline.getD "")
  let s :=
    match b.rspfile with
    | some rspfile => H.write_rsp s rspfile
    | none => s
  H.write_files s "out" graph file_state b.outs

/-- Embedding of `hash_build`: run the shared traversal with a fresh
`TerseHash` and finish.  `none` models the process abort taken when a
referenced file has no status or is missing. -/
def hash_build (graph : Graph) (file_state : FileState) (b : Build) :
    Option Hash :=
  hash_build_with_hasher terseHasher graph file_state b []

/-- Milliseconds since the epoch of a timestamp of `t` nanoseconds, as
computed by `duration_since(UNIX_EPOCH).as_millis()`. -/
def millisOf (t : Nat) : Nat := t / 1000000

/-- Hexadecimal digit character. -/
def hexDigit (n : Nat) : Char :=
  if n < 10 then Char.ofNat (48 + n) else Char.ofNat (87 + n)

/-- Two-digit hexadecimal rendering of one byte. -/
def hexByte (n : Nat) : String :=
  String.mk [hexDigit (n / 16 % 16), hexDigit (n % 16)]

/-- Concatenation of a list of strings. -/
def strConcat : List String → String
  | [] => ""
  | s :: l => s ++ strConcat l

/-- Rendering of the modelled digest of a byte stream as hexadecimal text;
stands for the `{:x}` formatting of the external hasher's 64-bit result
(the digest itself being modelled as its input transcript). -/
def hexOfBytes (bs : List Nat) : String :=
  strConcat (bs.map hexByte)

/-- One file line of the explain output: two spaces, milliseconds, space,
name, newline. -/
def explainFileLine (nt : String × Nat) : String :=
  "  " ++ Nat.repr (millisOf nt.2) ++ " " ++ nt.1 ++ "\n"

/-- Loop body of `ExplainHash::write_files` after the group header has been
written: one text line per identifier, aborting like the source's panic when
a status is absent or missing. -/
def explain_write_lines (graph : Graph) (file_state : FileState)
    (s : String) : List FileId → Option String
  | [] => some s
  | id :: ids =>
    match get_fileid_status graph file_state id with
    | none => none
    | some nt =>
      explain_write_lines graph file_state (s ++ explainFileLine nt) ids

/-- Embedding of `ExplainHash`, the `BuildHasher` recording human-readable
text for `-d explain`.  The response-file content hash rendered by the
source is the external hasher's 64-bit digest of the content bytes; it is
modelled by `hexOfBytes` of the content's byte transcript. -/
def explainHasher : BuildHasher String where
  write_files s desc graph file_state ids :=
    explain_write_lines graph file_state (s ++ desc ++ ":\n") ids
  write_rsp s rspfile :=
    s ++ "rspfile path: " ++ rspfile.path ++ "\n" ++
      "rspfile hash: " ++ hexOfBytes (strRawBytes rspfile.content) ++ "\n"
  write_cmdline s cmdline := s ++ "cmdline: " ++ cmdline ++ "\n"

/-- Embedding of `explain_hash_build`: run the shared traversal with a fresh
`ExplainHash` and return the accumulated text (`none` models the panic on a
violated status precondition, exactly as for `hash_build`). -/
def explain_hash_build (graph : Graph) (file_state : FileState) (b : Build) :
    Option String :=
  hash_build_with_hasher explainHasher graph file_state b ""

/-! ## The common observation trace

Both hashers consume, per group, exactly the sequence of
(name, timestamp) pairs produced by `get_fileid_status` on the group's
identifiers in order.  `build_trace` collects these observations; the
factorization lemmas below show both engines are functions of it. -/

/-- Sequence of (name, timestamp) observations for one group of
identifiers, in order; `none` when any identifier has no status entry or
is missing. -/
def group_status (graph : Graph) (file_state : FileState) :
    List FileId → Option (List (String × Nat))
  | [] => some []
  | id :: ids =>
    match get_fileid_status graph file_state id with
    | none => none
    | some nt =>
      match group_status graph file_state ids with
      | none => none
      | some rest => some (nt :: rest)

/-- Everything the traversal observes about a build edge: the
(name, timestamp) sequences of the three groups, the command-line text fed
to the hasher, and the response file if present. -/
structure BuildTrace where
  ins : List (String × Nat)
  discovered : List (String × Nat)
  cmdline : String
  rsp : Option RspFile
  outs : List (String × Nat)

/-- The observation trace of a build edge, when every referenced identifier
has a `Present` status. -/
def build_trace (graph : Graph) (file_state : FileState) (b : Build) :
    Option BuildTrace := do
  let ins ← group_status graph file_state b.dirtying_ins
  let discovered ← group_status graph file_state b.discovered_ins
  let outs ← group_status graph file_state b.outs
  pure ⟨ins, discovered, b.cmdline.getD "", b.rspfile, outs⟩

/-- Digest bytes contributed by one observed file: its name as a hashed
string, then its timestamp. -/
def terseFileEntry (nt : String × Nat) : List Nat :=
  strHashBytes nt.1 ++ timeBytes nt.2

/-- Digest bytes contributed by one group: the per-file entries in order,
then the reserved separator byte (written even when the group is empty). -/
def terseFiles (l : List (String × Nat)) : List Nat :=
  (l.map terseFileEntry).flatten ++ [UNIT_SEPARATOR]

/-- Digest bytes contributed by the command-line step: the text as a hashed
string, then the separator (written even when the text is empty). -/
def terseCmdline (cmdline : String) : List Nat :=
  strHashBytes cmdline ++ [UNIT_SEPARATOR]

/-- Digest bytes contributed by the response-file step: the content, only
when a response file is present, with no trailing separator. -/
def terseRsp : Option RspFile → List Nat
  | some rspfile => strHashBytes rspfile.content
  | none => []

/-- The full digest transcript as a function of the observation trace. -/
def terse_of_trace (tr : BuildTrace) : List Nat :=
  terseFiles tr.ins ++ terseFiles tr.discovered ++ terseCmdline tr.cmdline ++
    terseRsp tr.rsp ++ terseFiles tr.outs

/-- Explain text of one group: the caller-supplied label line, then one
line per observed file in order. -/
def explainFiles (desc : String) (l : List (String × Nat)) : String :=
  desc ++ ":\n" ++ strConcat (l.map explainFileLine)

/-- Explain text of the response-file step. -/
def explainRsp : Option RspFile → String
  | some rspfile =>
    "rspfile path: " ++ rspfile.path ++ "\n" ++
      "rspfile hash: " ++ hexOfBytes (strRawBytes rspfile.content) ++ "\n"
  | none => ""

/-- The full explain text as a function of the observation trace. -/
def explain_of_trace (tr : BuildTrace) : String :=
  explainFiles "in" tr.ins ++ explainFiles "discovered" tr.discovered ++
    ("cmdline: " ++ tr.cmdline ++ "\n") ++ explainRsp tr.rsp ++
    explainFiles "out" tr.outs

lemma string_data_append (s t : String) : (s ++ t).data = s.data ++ t.data := by
  cases s
  cases t
  rfl

lemma string_data_empty : ("" : String).data = [] := rfl

lemma string_eq_of_data {s t : String} (h : s.data = t.data) : s = t := by
  cases s
  cases t
  exact congrArg String.mk h

lemma string_append_empty (s : String) : s ++ "" = s := by
  apply string_eq_of_data
  simp [string_data_append, string_data_empty]

lemma terse_write_files_eq (graph : Graph) (file_state : FileState)
    (ids : List FileId) (s : List Nat) :
    terse_write_files graph file_state s ids =
      (group_status graph file_state ids).map (fun l => s ++ terseFiles l) := by
  induction ids generalizing s with
  | nil => simp [terse_write_files, group_status, terseFiles]
  | cons id ids ih =>
    cases h : get_fileid_status graph file_state id with
    | none => simp [terse_write_files, group_status, h]
    | some nt =>
      simp only [terse_write_files, group_status, h, ih]
      cases group_status graph file_state ids with
      | none => rfl
      | some rest => simp [terseFiles, terseFileEntry]

lemma explain_write_lines_eq (graph : Graph) (file_state : FileState)
    (ids : List FileId) (s : String) :
    explain_write_lines graph file_state s ids =
      (group_status graph file_state ids).map
        (fun l => s ++ strConcat (l.map explainFileLine)) := by
  induction ids generalizing s with
  | nil => simp [explain_write_lines, group_status, strConcat, string_append_empty]
  | cons id ids ih =>
    cases h : get_fileid_status graph file_state id with
    | none => simp [explain_write_lines, group_status, h]
    | some nt =>
      simp only [explain_write_lines, group_status, h, ih]
      cases group_status graph file_state ids with
      | none => rfl
      | some rest =>
        simp only [Option.map_some', Option.some.injEq, List.map_cons, strConcat]
        apply string_eq_of_data
        simp [string_data_append]

/-- The terse engine factors through the observation trace. -/
lemma hash_build_eq_trace (graph : Graph) (file_state : FileState)
    (b : Build) :
    hash_build graph file_state b =
      (build_trace graph file_state b).map terse_of_trace := by
  rw [hash_build, hash_build_with_hasher, build_trace]
  show (terse_write_files graph file_state [] b.dirtying_ins).bind _ = _
  rw [terse_write_files_eq]
  cases group_status graph file_state b.dirtying_ins with
  | none => rfl
  | some ins =>
    show (terse_write_files graph file_state _ b.discovered_ins).bind _ = _
    rw [terse_write_files_eq]
    cases group_status graph file_state b.discovered_ins with
    | none => rfl
    | some discovered =>
      show terse_write_files graph file_state _ b.outs = _
      rw [terse_write_files_eq]
      cases group_status graph file_state b.outs with
      | none => rfl
      | some outs =>
        cases hr : b.rspfile <;>
          simp [terseHasher, terse_of_trace, terseCmdline, terseRsp, hr]

/-- The explain recorder factors through the observation trace. -/
lemma explain_hash_build_eq_trace (graph : Graph) (file_state : FileState)
    (b : Build) :
    explain_hash_build graph file_state b =
      (build_trace graph file_state b).map explain_of_trace := by
  rw [explain_hash_build, hash_build_with_hasher, build_trace]
  show (explain_write_lines graph file_state _ b.dirtying_ins).bind _ = _
  rw [explain_write_lines_eq]
  cases group_status graph file_state b.dirtying_ins with
  | none => rfl
  | some ins =>
    show (explain_write_lines graph file_state _ b.discovered_ins).bind _ = _
    rw [explain_write_lines_eq]
    cases group_status graph file_state b.discovered_ins with
    | none => rfl
    | some discovered =>
      show explain_write_lines graph file_state _ b.outs = _
      rw [explain_write_lines_eq]
      cases group_status graph file_state b.outs with
      | none => rfl
      | some outs =>
        cases hr : b.rspfile <;>
          simp only [explainHasher, explain_of_trace, explainFiles, explainRsp,
            hr, Option.map_some', Option.bind_eq_bind, Option.some_bind,
            Option.pure_def, Option.some.injEq] <;>
          · apply string_eq_of_data
            simp [string_data_append, string_data_empty]

/-! ## Helper lemmas about group observations -/

lemma terseRsp_congr {r1 r2 : Option RspFile}
    (h : r1.map RspFile.content = r2.map RspFile.content) :
    terseRsp r1 = terseRsp r2 := by
  cases r1 <;> cases r2 <;> simp_all [terseRsp]

lemma group_status_isSome_of_present (graph : Graph) (fs : FileState)
    (ids : List FileId)
    (h : ∀ id ∈ ids, ∃ t, fs id = some (MTime.Stamp t)) :
    ∃ l, group_status graph fs ids = some l := by
  induction ids with
  | nil => exact ⟨[], rfl⟩
  | cons i ids ih =>
    obtain ⟨t, ht⟩ := h i (List.mem_cons_self i ids)
    obtain ⟨l, hl⟩ := ih (fun j hj => h j (List.mem_cons_of_mem _ hj))
    refine ⟨(graph.fileName i, t) :: l, ?_⟩
    simp [group_status, get_fileid_status, ht, hl]

lemma group_status_eq_none_of_bad (graph : Graph) (fs : FileState)
    (ids : List FileId) (id : FileId) (hmem : id ∈ ids)
    (hbad : fs id = none ∨ fs id = some MTime.Missing) :
    group_status graph fs ids = none := by
  induction ids with
  | nil => cases hmem
  | cons i ids ih =>
    rw [List.mem_cons] at hmem
    rcases hmem with rfl | hmem
    · rcases hbad with hb | hb <;> simp [group_status, get_fileid_status, hb]
    · rw [group_status]
      cases get_fileid_status graph fs i with
      | none => rfl
      | some nt => simp [ih hmem]

/-! ## Claims about the signature engine -/

/-- C1: two invocations of the signature engine that agree on the
(file name, timestamp) sequence of each group, on the command-line text and
on the response-file content produce equal Fingerprints — the result does
not depend on anything else, in particular not on the response file's
path. -/
theorem C1_fingerprint_depends_only_on_observations
    (g1 g2 : Graph) (fs1 fs2 : FileState) (b1 b2 : Build)
    (hin : group_status g1 fs1 b1.dirtying_ins =
      group_status g2 fs2 b2.dirtying_ins)
    (hdisc : group_status g1 fs1 b1.discovered_ins =
      group_status g2 fs2 b2.discovered_ins)
    (hout : group_status g1 fs1 b1.outs = group_status g2 fs2 b2.outs)
    (hcmd : b1.cmdline.getD "" = b2.cmdline.getD "")
    (hrsp : b1.rspfile.map RspFile.content = b2.rspfile.map RspFile.content) :
    hash_build g1 fs1 b1 = hash_build g2 fs2 b2 := by
  rw [hash_build_eq_trace, hash_build_eq_trace, build_trace, build_trace,
    hin, hdisc, hout, hcmd]
  cases group_status g2 fs2 b2.dirtying_ins with
  | none => rfl
  | some ins =>
    cases group_status g2 fs2 b2.discovered_ins with
    | none => rfl
    | some discovered =>
      cases group_status g2 fs2 b2.outs with
      | none => rfl
      | some outs =>
        simp [terse_of_trace, terseRsp_congr hrsp]

/-- Fixture graph for the concrete test cases: file names keyed by
identifier. -/
def gW : Graph :=
  ⟨fun id =>
    if id = 0 then "ab" else if id = 1 then "c"
    else if id = 2 then "a" else if id = 3 then "bc" else "other"⟩

/-- Fixture file-state: every identifier present with the same
timestamp. -/
def fsW : FileState := fun _ => some (MTime.Stamp 1500000000)

/-- Fixture edge whose response file has path `p1`. -/
def bRsp1 : Build := ⟨[0], [1], some "cc -o c ab", some ⟨"p1", "args"⟩, [1]⟩

/-- Fixture edge identical to `bRsp1` except for the response-file path
`p2`. -/
def bRsp2 : Build := ⟨[0], [1], some "cc -o c ab", some ⟨"p2", "args"⟩, [1]⟩

theorem C1_witness :
    group_status gW fsW bRsp1.dirtying_ins =
        group_status gW fsW bRsp2.dirtying_ins ∧
      group_status gW fsW bRsp1.discovered_ins =
        group_status gW fsW bRsp2.discovered_ins ∧
      group_status gW fsW bRsp1.outs = group_status gW fsW bRsp2.outs ∧
      bRsp1.cmdline.getD "" = bRsp2.cmdline.getD "" ∧
      bRsp1.rspfile.map RspFile.content = bRsp2.rspfile.map RspFile.content ∧
      hash_build gW fsW bRsp1 = hash_build gW fsW bRsp2 :=
  ⟨rfl, rfl, rfl, rfl, rfl,
    C1_fingerprint_depends_only_on_observations gW gW fsW fsW bRsp1 bRsp2
      rfl rfl rfl rfl rfl⟩

/-- C3: when every identifier referenced by the edge (dirtying inputs,
discovered inputs, outputs) has status `Present`, `hash_build` completes
with a value; when any referenced identifier has no status entry or has
status `Missing`, the engine aborts (modelled by `none`) instead of
returning a value. -/
theorem C3_status_precondition (graph : Graph) (fs : FileState) (b : Build) :
    ((∀ id ∈ b.dirtying_ins ++ b.discovered_ins ++ b.outs,
        ∃ t, fs id = some (MTime.Stamp t)) →
      ∃ h, hash_build graph fs b = some h) ∧
    ((∃ id ∈ b.dirtying_ins ++ b.discovered_ins ++ b.outs,
        fs id = none ∨ fs id = some MTime.Missing) →
      hash_build graph fs b = none) := by
  constructor
  · intro h
    obtain ⟨ins, hins⟩ := group_status_isSome_of_present graph fs b.dirtying_ins
      (fun i hi => h i (List.mem_append_left _ (List.mem_append_left _ hi)))
    obtain ⟨discovered, hdisc⟩ :=
      group_status_isSome_of_present graph fs b.discovered_ins
        (fun i hi => h i (List.mem_append_left _ (List.mem_append_right _ hi)))
    obtain ⟨outs, houts⟩ := group_status_isSome_of_present graph fs b.outs
      (fun i hi => h i (List.mem_append_right _ hi))
    rw [hash_build_eq_trace, build_trace, hins, hdisc, houts]
    exact ⟨_, rfl⟩
  · rintro ⟨id, hmem, hbad⟩
    rw [hash_build_eq_trace, build_trace]
    rcases List.mem_append.mp hmem with hmem' | houtmem
    · rcases List.mem_append.mp hmem' with hinmem | hdiscmem
      · rw [group_status_eq_none_of_bad graph fs _ id hinmem hbad]
        rfl
      · rw [group_status_eq_none_of_bad graph fs _ id hdiscmem hbad]
        cases group_status graph fs b.dirtying_ins <;> rfl
    · rw [group_status_eq_none_of_bad graph fs _ id houtmem hbad]
      cases group_status graph fs b.dirtying_ins with
      | none => rfl
      | some ins => cases group_status graph fs b.discovered_ins <;> rfl

/-- Fixture edge all of whose referenced identifiers are present. -/
def bOk : Build := ⟨[0], [2], some "cat", none, [1]⟩

/-- Fixture file-state in which identifier 3 is missing. -/
def fsMiss : FileState :=
  fun id => if id = 3 then some MTime.Missing else some (MTime.Stamp 7)

/-- Fixture edge referencing the missing identifier 3 among its outputs. -/
def bBad : Build := ⟨[0], [], some "cat", none, [3]⟩

theorem C3_witness :
    (∃ h, hash_build gW fsW bOk = some h) ∧
      hash_build gW fsMiss bBad = none :=
  ⟨(C3_status_precondition gW fsW bOk).1
      (by intro id hid; fin_cases hid <;> exact ⟨1500000000, rfl⟩),
    (C3_status_precondition gW fsMiss bBad).2
      ⟨3, by decide, Or.inr rfl⟩⟩

/-- C5: the signature engine's traversal is exactly the five steps in the
fixed order — dirtying inputs, discovered inputs, command line, response
file (only if present, without a trailing separator), outputs — where the
file-group steps and the command-line step each end in one separator byte
and are performed even on empty fields. -/
theorem C5_fixed_five_step_order (graph : Graph) (fs : FileState) (b : Build) :
    (hash_build graph fs b = (build_trace graph fs b).map (fun tr =>
      terseFiles tr.ins ++ terseFiles tr.discovered ++
        terseCmdline tr.cmdline ++ terseRsp tr.rsp ++ terseFiles tr.outs)) ∧
    terseFiles [] = [UNIT_SEPARATOR] ∧
    terseCmdline "" = [0xFF, UNIT_SEPARATOR] ∧
    terseRsp none = [] := by
  refine ⟨?_, rfl, rfl, rfl⟩
  rw [hash_build_eq_trace]
  rfl

/-- C7: the two fixture edges with input/output groups `["ab"]`/`["c"]`
versus `["a"]`/`["bc"]` (equal timestamps everywhere) receive different
Fingerprints even though the raw concatenations of their hashed text are
identical. -/
theorem C7_boundary_separation :
    hash_build gW fsW ⟨[0], [], none, none, [1]⟩ ≠
      hash_build gW fsW ⟨[2], [], none, none, [3]⟩ ∧
    strRawBytes (gW.fileName 0) ++ strRawBytes (gW.fileName 1) =
      strRawBytes (gW.fileName 2) ++ strRawBytes (gW.fileName 3) := by
  constructor
  · decide
  · decide

/-- C6: the explain recorder and the terse hasher are two instances of the
one shared traversal: for every edge both factor through the identical
observation trace (`build_trace`), so the file names and their order per
group recorded in the explain text are exactly the ones fed to the
digest. -/
theorem C6_explain_hash_consistency (graph : Graph) (fs : FileState)
    (b : Build) :
    hash_build graph fs b = (build_trace graph fs b).map terse_of_trace ∧
    explain_hash_build graph fs b =
      (build_trace graph fs b).map explain_of_trace :=
  ⟨hash_build_eq_trace graph fs b, explain_hash_build_eq_trace graph fs b⟩

/-- C10: an absent command line is hashed and recorded exactly as the empty
string: replacing a missing command line by an empty-string command line
changes neither the Fingerprint nor the explain text. -/
theorem C10_absent_cmdline_as_empty (graph : Graph) (fs : FileState)
    (b : Build) :
    hash_build graph fs { b with cmdline := none } =
      hash_build graph fs { b with cmdline := some "" } ∧
    explain_hash_build graph fs { b with cmdline := none } =
      explain_hash_build graph fs { b with cmdline := some "" } :=
  ⟨rfl, rfl⟩

/-! ## Orchestration (`src/run.rs`)

The Loader (`load::read`), the Scheduler (`work::Work`) and the tracing
collaborator are external; they are modelled as oracles supplied in an
environment.  The embedded `build` additionally returns a `Log` recording
the number of Loader calls and each Scheduler `run` invocation (which load's
state it ran on amd with which accumulated wants) — the "counter
collaborator" observation the specification proposes for testing. -/

abbrev Error := String

/-- Modelled from the spec: the Loader's result
`{graph, fingerprint_database, resource_pools, default_targets}`.
Everything except the default targets is only ever handed back to the
Scheduler, so it is summarized by the single datum `core`. -/
structure LoadState where
  core : Nat
  default : List FileId

/-- Embedding of `work::Options` (parallelism, keep-going threshold,
explain flag). -/
structure Options where
  parallelism : Nat
  keep_going : Nat
  explain : Bool
deriving DecidableEq, Repr

/-- One request registered on a Work instance: `want_fileid` or
`want_file`. -/
inductive Want where
  | fileid (id : FileId)
  | file (name : String)
deriving DecidableEq, Repr

/-- Oracle behaviours of the external collaborators of `build`:
`read n` is the result of the n-th `load::read` call (0-based);
`is_build_target`, `want_fileid`, `want_file` and `runWork` are the
Scheduler's operations, as functions of the loaded state (and, for `run`,
of the options and the accumulated wants). -/
structure Env where
  read : Nat → Except Error LoadState
  is_build_target : LoadState → String → Option FileId
  want_fileid : LoadState → FileId → Except Error Unit
  want_file : LoadState → String → Except Error Unit
  runWork : Options → LoadState → List Want → Except Error (Option Nat)

/-- Embedding of a `work::Work` instance: the options and loaded state it
was constructed from (`stateIdx` records which Loader call produced that
state) and the wants registered so far. -/
structure Work where
  options : Options
  stateIdx : Nat
  state : LoadState
  wants : List Want

/-- Embedding of `Work::new`: a fresh Work over a loaded state, no wants. -/
def Work.new (options : Options) (stateIdx : Nat) (state : LoadState) : Work :=
  ⟨options, stateIdx, state, []⟩

/-- Instrumentation of `build`: how many times the Loader was called, and
for each of the (at most two) Scheduler `run` invocations — the self-rebuild
one and the main one — which load's state it used and with which wants. -/
structure Log where
  loads : Nat
  selfRun : Option (Nat × List Want)
  mainRun : Option (Nat × List Want)

/-- Embedding of the `for name in &targets { work.want_file(name)?; }`
loop: register wants in order, propagating the first failure. -/
def want_files (env : Env) (w : Work) : List String → Except Error Work
  | [] => .ok w
  | name :: names =>
    match env.want_file w.state name with
    | .error e => .error e
    | .ok _ => want_files env {w with wants := w.wants ++ [Want.file name]} names

/-- Embedding of the `for target in state.default { work.want_fileid(target)?; }`
loop. -/
def want_fileids (env : Env) (w : Work) : List FileId → Except Error Work
  | [] => .ok w
  | id :: ids =>
    match env.want_fileid w.state id with
    | .error e => .error e
    | .ok _ => want_fileids env {w with wants := w.wants ++ [Want.fileid id]} ids

/-- The final `work.run()` of `build`, recorded as the main-phase run. -/
def runMain (env : Env) (w : Work) (log : Log) :
    Except Error (Option Nat) × Log :=
  (env.runWork w.options w.state w.wants,
    { log with mainRun := some (w.stateIdx, w.wants) })

/-- Embedding of the target-selection tail of `build`: explicit targets if
any, else the graph's default targets, else the explicit failure. -/
def mainPhase (env : Env) (targets : List String) (w : Work) (log : Log) :
    Except Error (Option Nat) × Log :=
  if targets ≠ [] then
    match want_files env w targets with
    | .error e => (.error e, log)
    | .ok w => runMain env w log
  else if w.state.default ≠ [] then
    match want_fileids env w w.state.default with
    | .error e => (.error e, log)
    | .ok w => runMain env w log
  else
    (.error "no path specified and no default", log)

/-- Embedding of the "attempt to rebuild build.ninja" block of `build`:
when the manifest is a build target, want it and run the Scheduler;
`ok none` is the early `return Ok(None)` on a failed run, `ok (some w)` is
the Work instance the main phase continues with (the original one when zero
tasks ran, a fresh one over a second load when the manifest was
regenerated). -/
def selfRebuild (env : Env) (build_filename : String) (w : Work) (log : Log) :
    Except Error (Option Work) × Log :=
  match env.is_build_target w.state build_filename with
  | none => (.ok (some w), log)
  | some target =>
    match env.want_fileid w.state target with
    | .error e => (.error e, log)
    | .ok _ =>
      let w := { w with wants := w.wants ++ [Want.fileid target] }
      let log := { log with selfRun := some (w.stateIdx, w.wants) }
      match env.runWork w.options w.state w.wants with
      | .error e => (.error e, log)
      | .ok none => (.ok none, log)
      | .ok (some 0) => (.ok (some w), log)
      | .ok (some (_ + 1)) =>
        let log := { log with loads := log.loads + 1 }
        match env.read 1 with
        | .error e => (.error e, log)
        | .ok st => (.ok (some (Work.new w.options 1 st)), log)

/-- Embedding of `build`: load, optionally self-rebuild (reloading at most
once), select targets, run.  The second component is the instrumentation
log. -/
def build (env : Env) (options : Options) (build_filename : String)
    (targets : List String) : Except Error (Option Nat) × Log :=
  match env.read 0 with
  | .error e => (.error e, ⟨1, none, none⟩)
  | .ok st =>
    match selfRebuild env build_filename (Work.new options 0 st) ⟨1, none, none⟩ with
    | (.error e, log) => (.error e, log)
    | (.ok none, log) => (.ok none, log)
    | (.ok (some w), log) => mainPhase env targets w log

/-! ## Helper lemmas about the orchestration -/

lemma want_files_inv (env : Env) (names : List String) (w w' : Work)
    (h : want_files env w names = .ok w') :
    w'.options = w.options ∧ w'.stateIdx = w.stateIdx ∧ w'.state = w.state := by
  induction names generalizing w with
  | nil =>
    rw [want_files] at h
    cases h
    exact ⟨rfl, rfl, rfl⟩
  | cons n names ih =>
    rw [want_files] at h
    cases hwf : env.want_file w.state n with
    | error e =>
      simp only [hwf] at h
      cases h
    | ok _ =>
      simp only [hwf] at h
      exact ih { w with wants := w.wants ++ [Want.file n] } h

lemma want_fileids_inv (env : Env) (ids : List FileId) (w w' : Work)
    (h : want_fileids env w ids = .ok w') :
    w'.options = w.options ∧ w'.stateIdx = w.stateIdx ∧ w'.state = w.state := by
  induction ids generalizing w with
  | nil =>
    rw [want_fileids] at h
    cases h
    exact ⟨rfl, rfl, rfl⟩
  | cons i ids ih =>
    rw [want_fileids] at h
    cases hwf : env.want_fileid w.state i with
    | error e =>
      simp only [hwf] at h
      cases h
    | ok _ =>
      simp only [hwf] at h
      exact ih { w with wants := w.wants ++ [Want.fileid i] } h

lemma mainPhase_loads (env : Env) (targets : List String) (w : Work)
    (log : Log) : (mainPhase env targets w log).2.loads = log.loads := by
  rw [mainPhase]
  split
  · cases want_files env w targets with
    | error e => rfl
    | ok w' => rfl
  · split
    · cases want_fileids env w w.state.default with
      | error e => rfl
      | ok w' => rfl
    · rfl

lemma mainPhase_mainRun_stateIdx (env : Env) (targets : List String)
    (w : Work) (log : Log) (p : Nat × List Want)
    (hlog : log.mainRun = none)
    (hp : (mainPhase env targets w log).2.mainRun = some p) :
    p.1 = w.stateIdx := by
  rw [mainPhase] at hp
  split at hp
  · cases hwf : want_files env w targets with
    | error e =>
      simp only [hwf, hlog] at hp
      cases hp
    | ok w' =>
      simp only [hwf, runMain, Option.some.injEq] at hp
      rw [← hp]
      exact (want_files_inv env targets w w' hwf).2.1
  · split at hp
    · cases hwf : want_fileids env w w.state.default with
      | error e =>
        simp only [hwf, hlog] at hp
        cases hp
      | ok w' =>
        simp only [hwf, runMain, Option.some.injEq] at hp
        rw [← hp]
        exact (want_fileids_inv env _ w w' hwf).2.1
    · simp only [hlog] at hp
      cases hp

/-! ## Claims about the orchestration -/

/-- C2: when the manifest is one of the graph's build outputs and the
self-rebuild Scheduler run reports at least one executed task, `build`
reloads everything from the same manifest exactly once — the Loader is
called exactly twice in total — and the main build phase, when it runs,
uses only the state of that second load. -/
theorem C2_regeneration_reloads_exactly_once
    (env : Env) (options : Options) (fname : String) (targets : List String)
    (st0 : LoadState) (target : FileId) (n : Nat)
    (h0 : env.read 0 = .ok st0)
    (hbt : env.is_build_target st0 fname = some target)
    (hw : env.want_fileid st0 target = .ok ())
    (hrun : env.runWork options st0 [Want.fileid target] = .ok (some (n + 1))) :
    (build env options fname targets).2.loads = 2 ∧
    (∀ p, (build env options fname targets).2.mainRun = some p → p.1 = 1) := by
  cases hrd : env.read 1 with
  | error e =>
    have hb : build env options fname targets =
        (.error e, ⟨2, some (0, [Want.fileid target]), none⟩) := by
      simp [build, h0, selfRebuild, Work.new, hbt, hw, hrun, hrd]
    rw [hb]
    exact ⟨rfl, fun p hp => by cases hp⟩
  | ok st1 =>
    have hb : build env options fname targets =
        mainPhase env targets (Work.new options 1 st1)
          ⟨2, some (0, [Want.fileid target]), none⟩ := by
      simp [build, h0, selfRebuild, Work.new, hbt, hw, hrun, hrd]
    rw [hb]
    refine ⟨?_, ?_⟩
    · rw [mainPhase_loads]
    · intro p hp
      exact mainPhase_mainRun_stateIdx env targets _ _ p rfl hp

/-- Fixture loaded states: the initial (stale-manifest) state and the
reloaded state. -/
def stA : LoadState := ⟨10, [5]⟩

/-- Fixture reloaded state. -/
def stB : LoadState := ⟨20, [5]⟩

/-- Fixture options. -/
def optsW : Options := ⟨4, 1, false⟩

/-- Fixture environment whose first load yields a stale self-generating
manifest (one task executed on the self-rebuild run) and whose second load
yields the regenerated state. -/
def envC2 : Env where
  read n := if n = 0 then .ok stA else .ok stB
  is_build_target st _ := if st.core = 10 then some 7 else none
  want_fileid _ _ := .ok ()
  want_file _ _ := .ok ()
  runWork _ st _ := if st.core = 10 then .ok (some 1) else .ok (some 0)

theorem C2_witness :
    envC2.read 0 = .ok stA ∧
      envC2.is_build_target stA "build.ninja" = some 7 ∧
      envC2.want_fileid stA 7 = .ok () ∧
      envC2.runWork optsW stA [Want.fileid 7] = .ok (some (0 + 1)) ∧
      (build envC2 optsW "build.ninja" []).2.loads = 2 ∧
      (∀ p, (build envC2 optsW "build.ninja" []).2.mainRun = some p →
        p.1 = 1) :=
  ⟨rfl, rfl, rfl, rfl,
    C2_regeneration_reloads_exactly_once envC2 optsW "build.ninja" [] stA 7 0
      rfl rfl rfl rfl⟩

/-- C8: when the manifest is a build output and the self-rebuild Scheduler
run reports zero tasks, `build` proceeds directly to the main phase on the
originally loaded state with the Loader called exactly once; and when that
run reports failure (`None`), `build` returns `Ok(None)` without a main
build phase. -/
theorem C8_already_current_and_failure :
    (∀ (env : Env) (options : Options) (fname : String)
        (targets : List String) (st0 : LoadState) (target : FileId),
      env.read 0 = .ok st0 →
      env.is_build_target st0 fname = some target →
      env.want_fileid st0 target = .ok () →
      env.runWork options st0 [Want.fileid target] = .ok (some 0) →
      (build env options fname targets).2.loads = 1 ∧
      (∀ p, (build env options fname targets).2.mainRun = some p →
        p.1 = 0)) ∧
    (∀ (env : Env) (options : Options) (fname : String)
        (targets : List String) (st0 : LoadState) (target : FileId),
      env.read 0 = .ok st0 →
      env.is_build_target st0 fname = some target →
      env.want_fileid st0 target = .ok () →
      env.runWork options st0 [Want.fileid target] = .ok none →
      (build env options fname targets).1 = .ok none ∧
      (build env options fname targets).2.loads = 1 ∧
      (build env options fname targets).2.mainRun = none) := by
  constructor
  · intro env options fname targets st0 target h0 hbt hw hrun
    have hb : build env options fname targets =
        mainPhase env targets ⟨options, 0, st0, [Want.fileid target]⟩
          ⟨1, some (0, [Want.fileid target]), none⟩ := by
      simp [build, h0, selfRebuild, Work.new, hbt, hw, hrun]
    rw [hb]
    refine ⟨?_, ?_⟩
    · rw [mainPhase_loads]
    · intro p hp
      exact mainPhase_mainRun_stateIdx env targets _ _ p rfl hp
  · intro env options fname targets st0 target h0 hbt hw hrun
    have hb : build env options fname targets =
        (.ok none, ⟨1, some (0, [Want.fileid target]), none⟩) := by
      simp [build, h0, selfRebuild, Work.new, hbt, hw, hrun]
    rw [hb]
    exact ⟨rfl, rfl, rfl⟩

/-- Fixture environment whose self-rebuild run reports zero tasks. -/
def envC8a : Env where
  read n := if n = 0 then .ok stA else .ok stB
  is_build_target st _ := if st.core = 10 then some 7 else none
  want_fileid _ _ := .ok ()
  want_file _ _ := .ok ()
  runWork _ _ _ := .ok (some 0)

/-- Fixture environment whose self-rebuild run fails. -/
def envC8b : Env where
  read n := if n = 0 then .ok stA else .ok stB
  is_build_target st _ := if st.core = 10 then some 7 else none
  want_fileid _ _ := .ok ()
  want_file _ _ := .ok ()
  runWork _ _ _ := .ok none

theorem C8_witness :
    (envC8a.runWork optsW stA [Want.fileid 7] = .ok (some 0) ∧
      (build envC8a optsW "build.ninja" []).2.loads = 1 ∧
      (∀ p, (build envC8a optsW "build.ninja" []).2.mainRun = some p →
        p.1 = 0)) ∧
    (envC8b.runWork optsW stA [Want.fileid 7] = .ok none ∧
      (build envC8b optsW "build.ninja" []).1 = .ok none ∧
      (build envC8b optsW "build.ninja" []).2.mainRun = none) := by
  refine ⟨⟨rfl, ?_⟩, ⟨rfl, ?_, ?_⟩⟩
  · exact C8_already_current_and_failure.1 envC8a optsW "build.ninja" [] stA 7
      rfl rfl rfl rfl
  · exact (C8_already_current_and_failure.2 envC8b optsW "build.ninja" [] stA 7
      rfl rfl rfl rfl).1
  · exact (C8_already_current_and_failure.2 envC8b optsW "build.ninja" [] stA 7
      rfl rfl rfl rfl).2.2

/-- C4: with an empty explicit-target list and empty default-target lists
in every loaded state, once the self-rebuild phase completes without
terminating the build, `build` fails with the explicit
"no path specified and no default" error and the Scheduler is never invoked
for a main build phase. -/
theorem C4_no_target_no_default
    (env : Env) (options : Options) (fname : String) (st0 : LoadState)
    (h0 : env.read 0 = .ok st0)
    (hdef : ∀ i st, env.read i = .ok st → st.default = [])
    (hphase :
      env.is_build_target st0 fname = none ∨
      ∃ target, env.is_build_target st0 fname = some target ∧
        env.want_fileid st0 target = .ok () ∧
        (env.runWork options st0 [Want.fileid target] = .ok (some 0) ∨
          ∃ n st1,
            env.runWork options st0 [Want.fileid target] = .ok (some (n + 1)) ∧
            env.read 1 = .ok st1)) :
    (build env options fname []).1 = .error "no path specified and no default" ∧
    (build env options fname []).2.mainRun = none := by
  have hd0 : st0.default = [] := hdef 0 st0 h0
  rcases hphase with hbt | ⟨target, hbt, hw, hrun⟩
  · have hb : build env options fname [] =
        (.error "no path specified and no default", ⟨1, none, none⟩) := by
      simp [build, h0, selfRebuild, Work.new, hbt, mainPhase, hd0]
    rw [hb]
    exact ⟨rfl, rfl⟩
  · rcases hrun with hrun | ⟨n, st1, hrun, hrd1⟩
    · have hb : build env options fname [] =
          (.error "no path specified and no default",
            ⟨1, some (0, [Want.fileid target]), none⟩) := by
        simp [build, h0, selfRebuild, Work.new, hbt, hw, hrun, mainPhase, hd0]
      rw [hb]
      exact ⟨rfl, rfl⟩
    · have hd1 : st1.default = [] := hdef 1 st1 hrd1
      have hb : build env options fname [] =
          (.error "no path specified and no default",
            ⟨2, some (0, [Want.fileid target]), none⟩) := by
        simp [build, h0, selfRebuild, Work.new, hbt, hw, hrun, hrd1,
          mainPhase, hd1]
      rw [hb]
      exact ⟨rfl, rfl⟩

/-- Fixture state with no default targets. -/
def stND : LoadState := ⟨30, []⟩

/-- Fixture environment with no self-generating manifest and no default
targets. -/
def envC4 : Env where
  read _ := .ok stND
  is_build_target _ _ := none
  want_fileid _ _ := .ok ()
  want_file _ _ := .ok ()
  runWork _ _ _ := .ok (some 0)

theorem C4_witness :
    envC4.read 0 = .ok stND ∧
      (∀ i st, envC4.read i = .ok st → st.default = []) ∧
      (build envC4 optsW "build.ninja" []).1 =
        .error "no path specified and no default" ∧
      (build envC4 optsW "build.ninja" []).2.mainRun = none :=
  ⟨rfl, fun _ st h => by cases h; rfl,
    (C4_no_target_no_default envC4 optsW "build.ninja" stND rfl
      (fun _ st h => by cases h; rfl) (Or.inl rfl)).1,
    (C4_no_target_no_default envC4 optsW "build.ninja" stND rfl
      (fun _ st h => by cases h; rfl) (Or.inl rfl)).2⟩

/-! ## The top-level entry point (`run`, `run_impl`) -/

/-- State of the process-wide tracing collaborator: how many times
`trace::open` and `trace::close` have been invoked. -/
structure TraceState where
  opens : Nat
  closes : Nat

/-- The tracing collaborator's close/flush. -/
def trace_close (t : TraceState) : TraceState :=
  { t with closes := t.closes + 1 }

/-- The tracing collaborator's open; `res` is the oracle outcome of opening
the trace file. -/
def trace_open (res : Except Error Unit) (t : TraceState) :
    Except Error TraceState :=
  match res with
  | .error e => .error e
  | .ok _ => .ok { t with opens := t.opens + 1 }

/-- Embedding of the parsed `Args` structure. -/
structure Args where
  chdir : Option String
  build_file : String
  debug : Option String
  tool : Option String
  parallelism : Option Nat
  keep_going : Nat
  version : Bool
  verbose : Bool
  targets : List String

/-- Environment of `run_impl`: the parsed arguments plus the oracle
behaviours of its external collaborators (console printing, which no
result depends on, is dropped). -/
structure RunEnv where
  benv : Env
  args : Args
  fake_ninja_compat : Bool
  default_parallelism : Except Error Nat
  trace_open_result : Except Error Unit
  chdir : String → Except Error Unit

/-- The final stage of `run_impl`: call `build` and map its outcome to the
process exit code (`None` → 1, any task count → 0; the summary printing is
dropped). -/
def run_build_phase (env : RunEnv) (options : Options) (t : TraceState) :
    Except Error Int × TraceState :=
  match (build env.benv options env.args.build_file env.args.targets).1 with
  | .error e => (.error e, t)
  | .ok none => (.ok 1, t)
  | .ok (some _) => (.ok 0, t)

/-- The `chdir` stage of `run_impl` (the error text approximates Rust's
`{:?}` quoting of the directory). -/
def run_chdir_phase (env : RunEnv) (options : Options) (t : TraceState) :
    Except Error Int × TraceState :=
  match env.args.chdir with
  | some dir =>
    match env.chdir dir with
    | .error err => (.error ("chdir \x22" ++ dir ++ "\x22: " ++ err), t)
    | .ok _ => run_build_phase env options t
  | none => run_build_phase env options t

/-- The `-t` subcommand stage of `run_impl`. -/
def run_tool_phase (env : RunEnv) (options : Options) (t : TraceState) :
    Except Error Int × TraceState :=
  match env.args.tool with
  | some tool =>
    if tool = "list" then (.ok 1, t)
    else if env.fake_ninja_compat then (.ok 0, t)
    else (.error ("unknown -t \x22" ++ tool ++ "\x22, use -t list to list"), t)
  | none => run_chdir_phase env options t

/-- The `-d` debug-tools stage of `run_impl`. -/
def run_debug_phase (env : RunEnv) (options : Options) (t : TraceState) :
    Except Error Int × TraceState :=
  match env.args.debug with
  | some d =>
    if d = "explain" then run_tool_phase env { options with explain := true } t
    else if d = "list" then (.ok 1, t)
    else if d = "trace" then
      match trace_open env.trace_open_result t with
      | .error e => (.error e, t)
      | .ok t => run_tool_phase env options t
    else (.error ("unknown -d \x22" ++ d ++ "\x22, use -d list to list"), t)
  | none => run_tool_phase env options t

/-- Embedding of `run_impl`: resolve the parallelism, build the `Options`,
handle `--version`, then the debug, tool, chdir and build stages in the
source's order. -/
def run_impl (env : RunEnv) (t : TraceState) :
    Except Error Int × TraceState :=
  match
    (match env.args.parallelism with
     | some p => Except.ok p
     | none => env.default_parallelism) with
  | .error e => (.error e, t)
  | .ok par =>
    let options : Options :=
      { parallelism := par, keep_going := env.args.keep_going, explain := false }
    if env.args.version then (.ok 0, t)
    else run_debug_phase env options t

/-- Embedding of `run`: call `run_impl`, then close the tracing
collaborator, then return `run_impl`'s result. -/
def run (env : RunEnv) (t : TraceState) : Except Error Int × TraceState :=
  let res := run_impl env t
  (res.1, trace_close res.2)

/-! ## Claim about the top-level wrapper -/

lemma run_build_phase_closes (env : RunEnv) (options : Options)
    (t : TraceState) : (run_build_phase env options t).2.closes = t.closes := by
  rw [run_build_phase]
  split <;> rfl

lemma run_chdir_phase_closes (env : RunEnv) (options : Options)
    (t : TraceState) : (run_chdir_phase env options t).2.closes = t.closes := by
  rw [run_chdir_phase]
  split
  · split
    · rfl
    · exact run_build_phase_closes env options t
  · exact run_build_phase_closes env options t

lemma run_tool_phase_closes (env : RunEnv) (options : Options)
    (t : TraceState) : (run_tool_phase env options t).2.closes = t.closes := by
  rw [run_tool_phase]
  split
  · split
    · rfl
    · split
      · rfl
      · rfl
  · exact run_chdir_phase_closes env options t

lemma run_debug_phase_closes (env : RunEnv) (options : Options)
    (t : TraceState) : (run_debug_phase env options t).2.closes = t.closes := by
  rw [run_debug_phase]
  split
  · split
    · exact run_tool_phase_closes env _ t
    · split
      · rfl
      · split
        · cases hopen : env.trace_open_result with
          | error e => simp [trace_open, hopen]
          | ok _ =>
            simp only [trace_open, hopen]
            exact run_tool_phase_closes env options _
        · rfl
  · exact run_tool_phase_closes env options t

lemma run_impl_closes (env : RunEnv) (t : TraceState) :
    (run_impl env t).2.closes = t.closes := by
  rw [run_impl]
  split
  · rfl
  · split
    · rfl
    · exact run_debug_phase_closes env _ t

/-- C9: `run` returns `run_impl`'s result unchanged and invokes the tracing
collaborator's close exactly once before returning, on every exit path of
`run_impl` (which itself never closes the trace). -/
theorem C9_run_closes_trace_once (env : RunEnv) (t : TraceState) :
    (run env t).1 = (run_impl env t).1 ∧
    (run env t).2.closes = t.closes + 1 := by
  refine ⟨rfl, ?_⟩
  show (trace_close (run_impl env t).2).closes = t.closes + 1
  rw [trace_close]
  rw [run_impl_closes]

end N2
